import Mathlib

/-!
Verification development for the websocket-pba repository: a shallow
embedding of the session hub's routing policy, the admission handshake,
the presence store, the LLM bridge's event stream, the bridge start
registry, and the HTTP thread endpoints, with the specification's claims
settled as theorems over these definitions.
-/

namespace WsPba

/-- JSON values, as produced by Python's `json.loads` (null maps to
`jnull`, objects keep insertion order as association lists). -/
inductive JVal where
  | jnull
  | jbool (b : Bool)
  | jnum (n : Int)
  | jstr (s : String)
  | jarr (xs : List JVal)
  | jobj (fields : List (String × JVal))

/-- `d.get(k)`: first binding of `k` in the association list, `none` when
the key is absent. -/
def getField (fields : List (String × JVal)) (k : String) : Option JVal :=
  match fields with
  | [] => none
  | (k', v) :: rest => if k' = k then some v else getField rest k

/-- `k in d` for a JSON object. -/
def hasKey (fields : List (String × JVal)) (k : String) : Bool :=
  match fields with
  | [] => false
  | (k', _) :: rest => k' = k || hasKey rest k

/-- `{**d, k: v}`: replace the value at `k` in place (Python dicts keep the
original key position on update), appending when the key is absent. -/
def setKey (fields : List (String × JVal)) (k : String) (v : JVal) :
    List (String × JVal) :=
  match fields with
  | [] => [(k, v)]
  | (k', v') :: rest =>
      if k' = k then (k', v) :: rest else (k', v') :: setKey rest k v

/-- Python truthiness of a JSON value (`bool(x)`). -/
def pyTruthy : JVal → Bool
  | .jnull => false
  | .jbool b => b
  | .jnum n => n != 0
  | .jstr s => s != ""
  | .jarr xs => !xs.isEmpty
  | .jobj fs => !fs.isEmpty

/-- Python `str.strip()`: drop leading and trailing whitespace. -/
def pyStrip (s : String) : String :=
  ⟨((s.data.dropWhile Char.isWhitespace).reverse.dropWhile Char.isWhitespace).reverse⟩

/-- Python `str.lower()` (ASCII case folding). -/
def pyLower (s : String) : String :=
  ⟨s.data.map Char.toLower⟩

/-! ## Session hub routing (src/ws_server/realtime/consumers.py)

The channel-layer envelope built in `SessionConsumer.receive` for a
`broadcast` frame, and the two delivery handlers `session_message` and
`broadcast_message` that each subscribed consumer runs on receipt. -/

/-- The group-send payload built in `SessionConsumer.receive` for
`{"type": "broadcast", ...}`. `user_type`/`sender_user_type` are the
sender's latched role; `sender_channel` its channel name. -/
structure Envelope where
  relayType : String
  userType : String
  msg : Option JVal
  data : Option JVal
  senderChannel : String
  senderUserType : String

/-- `relay_type = "broadcast_message" if self.user_type == "ai" else
"session_message"`, then the payload dict. -/
def buildBroadcastPayload (senderRole senderChannel : String)
    (msg data : Option JVal) : Envelope :=
  { relayType := if senderRole = "ai" then "broadcast_message" else "session_message"
    userType := senderRole
    msg := msg
    data := data
    senderChannel := senderChannel
    senderUserType := senderRole }

/-- A frame written to one client socket by `send_json`. -/
structure Frame where
  ftype : String
  userType : String
  msg : Option JVal
  data : Option JVal

/-- `SessionConsumer.session_message`: drop when the event's
`sender_channel` equals this consumer's channel; drop operator-origin
events unless this consumer's role is `patient`; otherwise forward as a
`session_message` frame. The recipient role is `Option String` because
`self.user_type` may still be `None`. -/
def sessionMessageFrame (recipChannel : String) (recipRole : Option String)
    (e : Envelope) : Option Frame :=
  if e.senderChannel = recipChannel then none
  else if e.senderUserType = "operator" ∧ recipRole ≠ some "patient" then none
  else some { ftype := "session_message", userType := e.userType
              msg := e.msg, data := e.data }

/-- `SessionConsumer.broadcast_message`: operators get the `content` field
of a dict-shaped `data` blanked (a non-dict `data` becomes `{}`) and a
non-null `msg` replaced by `""`; everyone else gets the payload intact.
There is no sender-channel test in this handler. -/
def broadcastMessageFrame (recipRole : Option String) (e : Envelope) : Frame :=
  if recipRole = some "operator" then
    let data' : Option JVal :=
      match e.data with
      | none => none
      | some (.jobj fs) =>
          if hasKey fs "content" then some (.jobj (setKey fs "content" (.jstr "")))
          else some (.jobj fs)
      | some _ => some (.jobj [])
    let msg' : Option JVal := match e.msg with
      | none => none
      | some _ => some (.jstr "")
    { ftype := "broadcast", userType := e.userType, msg := msg', data := data' }
  else
    { ftype := "broadcast", userType := e.userType, msg := e.msg, data := e.data }

/-- Channel-layer dispatch: the payload's `type` names the handler method
run by each subscribed consumer. -/
def deliverEnvelope (recipChannel : String) (recipRole : Option String)
    (e : Envelope) : Option Frame :=
  if e.relayType = "broadcast_message" then
    some (broadcastMessageFrame recipRole e)
  else
    sessionMessageFrame recipChannel recipRole e

/-! ## Admission and message handling (`SessionConsumer.receive`)

`receive` is modelled as a pure step function from the per-connection
state and one parsed inbound JSON object to the next state plus the list
of observable actions (frames sent to this client, socket close, presence
writes, group publications) in program order. -/

/-- Per-connection consumer state. `sessionId`, `connectionId` and
`channelName` are fixed at `connect`; `userType` is `none` until the
admission message latches it. -/
structure ConnState where
  sessionId : String
  connectionId : String
  channelName : String
  userType : Option String
  presenceRegistered : Bool
  presenceTaskRunning : Bool

/-- Observable effects of one `receive` call, in order. The `presence`
frame's member list comes from Redis and is modelled as the query action. -/
inductive Action where
  | send (frame : JVal)
  | close (code : Nat)
  | upsertPresence (sessionId connectionId userType : String) (ttl : Nat)
  | startRefreshTask
  | groupSend (e : Envelope)
  | presenceQuery (sessionId : String)

def PRESENCE_TTL_SECONDS : Nat := 120

def ALLOWED_USER_TYPES : List String := ["patient", "operator", "ai"]

/-- `{"type": "error", "error": "user_type_required"}` -/
def userTypeRequiredFrame : JVal :=
  .jobj [("type", .jstr "error"), ("error", .jstr "user_type_required")]

/-- The invalid-role error frame (its `detail` names the allowed roles). -/
def invalidUserTypeFrame : JVal :=
  .jobj [("type", .jstr "error"), ("error", .jstr "invalid_user_type"),
         ("detail", .jstr "user_type must be patient, operator, or ai")]

/-- `msg.get(k)` collapsed through JSON null: a key that is absent or
holds `null` reads as Python `None`. -/
def pyGet (msg : List (String × JVal)) (k : String) : Option JVal :=
  match getField msg k with
  | some .jnull => none
  | some v => some v
  | none => none

/-- `msg.get("user_type") or msg.get("from")`: the legacy `from` alias is
consulted when `user_type` is absent or falsy. -/
def effectiveUserType (msg : List (String × JVal)) : Option JVal :=
  match getField msg "user_type" with
  | some v => if pyTruthy v then some v else getField msg "from"
  | none => getField msg "from"

/-- `msg.get("type") == t` (a non-string value never equals a string). -/
def msgTypeIs (msg : List (String × JVal)) (t : String) : Bool :=
  match getField msg "type" with
  | some (.jstr s) => s = t
  | _ => false

/-- The dispatch on `msg["type"]` that runs once the admission block has
passed (the activity upsert, then hello / presence / broadcast / echo).
`acc` holds the actions the admission block already produced. -/
def receiveAdmitted (st : ConnState) (msg : List (String × JVal))
    (acc : List Action) : ConnState × List Action :=
  let acc := if st.presenceRegistered then
      acc ++ [Action.upsertPresence st.sessionId st.connectionId
                (st.userType.getD "") PRESENCE_TTL_SECONDS]
    else acc
  if msgTypeIs msg "hello" then
    (st, acc ++ [Action.send (.jobj
      [("type", .jstr "hello_ack"), ("session_id", .jstr st.sessionId),
       ("connection_id", .jstr st.connectionId),
       ("user_type", match st.userType with | some u => .jstr u | none => .jnull)])])
  else if msgTypeIs msg "presence" then
    if !st.presenceRegistered then
      (st, acc ++ [Action.send userTypeRequiredFrame, Action.close 4401])
    else
      (st, acc ++ [Action.presenceQuery st.sessionId])
  else if msgTypeIs msg "broadcast" then
    if !st.presenceRegistered then
      (st, acc ++ [Action.send userTypeRequiredFrame, Action.close 4401])
    else
      (st, acc ++ [Action.groupSend (buildBroadcastPayload (st.userType.getD "")
        st.channelName (pyGet msg "msg") (pyGet msg "data"))])
  else
    (st, acc ++ [Action.send (.jobj [("type", .jstr "echo"), ("data", .jobj msg)])])

/-- `SessionConsumer.receive` on one parsed JSON object: when no role is
latched the admission block runs first (`user_type`, falling back to the
legacy `from` alias; invalid or missing role sends a structured error and
closes with 4401 before anything else), then the per-kind dispatch. -/
def receive (st : ConnState) (msg : List (String × JVal)) : ConnState × List Action :=
  match st.userType with
  | some _ => receiveAdmitted st msg []
  | none =>
    match effectiveUserType msg with
    | some (.jstr s) =>
      if pyStrip s ≠ "" then
        let normalized := pyLower (pyStrip s)
        if normalized ∈ ALLOWED_USER_TYPES then
          let st' : ConnState :=
            { st with userType := some normalized, presenceRegistered := true,
                      presenceTaskRunning := true }
          receiveAdmitted st' msg
            ([Action.upsertPresence st.sessionId st.connectionId normalized
                PRESENCE_TTL_SECONDS] ++
             (if st.presenceTaskRunning then [] else [Action.startRefreshTask]))
        else
          (st, [Action.send invalidUserTypeFrame, Action.close 4401])
      else
        (st, [Action.send userTypeRequiredFrame, Action.close 4401])
    | some _ =>
      (st, [Action.send userTypeRequiredFrame, Action.close 4401])
    | none =>
      (st, [Action.send userTypeRequiredFrame, Action.close 4401])

/-! ## Presence store (src/ws_server/realtime/presence.py)

Redis is modelled as three association-list maps: the per-session SETs,
the per-connection HASHes, and the TTLs. Pipelines are sequential compositions. -/

/-- Association-list lookup (first binding wins, as for a keyed map). -/
def alGet {α : Type} (l : List (String × α)) (k : String) : Option α :=
  match l with
  | [] => none
  | (k', v) :: rest => if k' = k then some v else alGet rest k

/-- Set `k` to `v`, replacing the first binding in place, appending when absent. -/
def alSet {α : Type} (l : List (String × α)) (k : String) (v : α) :
    List (String × α) :=
  match l with
  | [] => [(k, v)]
  | (k', v') :: rest => if k' = k then (k', v) :: rest else (k', v') :: alSet rest k v

/-- Remove every binding of `k`. -/
def alRemove {α : Type} (l : List (String × α)) (k : String) : List (String × α) :=
  l.filter (fun p => p.1 ≠ k)

def sessionSetKey (sessionId : String) : String :=
  "ws:presence:session:" ++ sessionId

def connHashKey (connectionId : String) : String :=
  "ws:presence:conn:" ++ connectionId

/-- The slice of Redis the presence module touches. -/
structure RedisState where
  sets : List (String × List String)
  hashes : List (String × List (String × String))
  ttls : List (String × Nat)

/-- `SADD key member`. -/
def sadd (st : RedisState) (key member : String) : RedisState :=
  match alGet st.sets key with
  | some ms =>
      if member ∈ ms then st
      else { st with sets := alSet st.sets key (ms ++ [member]) }
  | none => { st with sets := alSet st.sets key [member] }

/-- `SREM key members`. -/
def srem (st : RedisState) (key : String) (members : List String) : RedisState :=
  match alGet st.sets key with
  | some ms => { st with sets := alSet st.sets key (ms.filter (fun m => m ∉ members)) }
  | none => st

/-- `HSET key field value` (creates the hash when absent). -/
def hsetOne (st : RedisState) (key field value : String) : RedisState :=
  let h := (alGet st.hashes key).getD []
  { st with hashes := alSet st.hashes key (alSet h field value) }

/-- `HSET key mapping={...}` over the mapping in order. -/
def hsetMany (st : RedisState) (key : String) (fields : List (String × String)) :
    RedisState :=
  fields.foldl (fun s p => hsetOne s key p.1 p.2) st

/-- `HSETNX key field value`. -/
def hsetnx (st : RedisState) (key field value : String) : RedisState :=
  let h := (alGet st.hashes key).getD []
  match alGet h field with
  | some _ => st
  | none => { st with hashes := alSet st.hashes key (alSet h field value) }

/-- `EXPIRE key ttl` (no effect on a missing key). -/
def expireKey (st : RedisState) (key : String) (ttl : Nat) : RedisState :=
  if (alGet st.hashes key).isSome then { st with ttls := alSet st.ttls key ttl }
  else st

/-- `DEL key` for a connection hash (drops its TTL with it). -/
def delKey (st : RedisState) (key : String) : RedisState :=
  { st with hashes := alRemove st.hashes key, ttls := alRemove st.ttls key }

/-- `upsert_connection`: SADD to the session set, HSET the record fields,
HSETNX `connected_at` (first write wins), EXPIRE. -/
def upsertConnection (st : RedisState) (sessionId connectionId userType : String)
    (ttlSeconds now : Nat) : RedisState :=
  let st1 := sadd st (sessionSetKey sessionId) connectionId
  let st2 := hsetMany st1 (connHashKey connectionId)
    [("session_id", sessionId), ("user_type", userType), ("last_seen", toString now)]
  let st3 := hsetnx st2 (connHashKey connectionId) "connected_at" (toString now)
  expireKey st3 (connHashKey connectionId) ttlSeconds

/-- `refresh_connection`: pipeline EXISTS (on the pre-state), HSET
`last_seen`, EXPIRE; returns whether the record existed. -/
def refreshConnection (st : RedisState) (connectionId : String)
    (ttlSeconds now : Nat) : Bool × RedisState :=
  let key := connHashKey connectionId
  let existed := (alGet st.hashes key).isSome
  let st1 := hsetOne st key "last_seen" (toString now)
  let st2 := expireKey st1 key ttlSeconds
  (existed, st2)

/-- `remove_connection`: SREM from the session set and DEL the hash. -/
def removeConnection (st : RedisState) (sessionId connectionId : String) : RedisState :=
  delKey (srem st (sessionSetKey sessionId) [connectionId]) (connHashKey connectionId)

structure PresenceMember where
  connection_id : String
  session_id : String
  user_type : String
  connected_at : Int
  last_seen : Int

/-- Python `a or b` over an optional string against a default (empty is falsy). -/
def pyOrDefault (a : Option String) (b : String) : String :=
  match a with
  | some s => if s ≠ "" then s else b
  | none => b

/-- `int(x or "0")` with `ValueError` mapped to 0. -/
def parseIntOrZero (a : Option String) : Int :=
  (String.toInt? (pyOrDefault a "0")).getD 0

/-- One iteration of the member-building loop of `list_connections`:
an empty row or a wrong/absent `session_id` field marks the id stale. -/
def listStep (sessionId : String) (acc : List PresenceMember × List String)
    (p : String × List (String × String)) : List PresenceMember × List String :=
  let (cid, data) := p
  if data.isEmpty then (acc.1, acc.2 ++ [cid])
  else if alGet data "session_id" ≠ some sessionId then (acc.1, acc.2 ++ [cid])
  else
    (acc.1 ++ [{ connection_id := cid
                 session_id := sessionId
                 user_type := pyOrDefault (alGet data "user_type")
                   (pyOrDefault (alGet data "from") "anonymous")
                 connected_at := parseIntOrZero (alGet data "connected_at")
                 last_seen := parseIntOrZero (alGet data "last_seen") }], acc.2)

/-- Sort key `(connected_at, connection_id)`. -/
def memberLe (a b : PresenceMember) : Bool :=
  a.connected_at < b.connected_at ||
    (a.connected_at = b.connected_at && a.connection_id ≤ b.connection_id)

/-- `list_connections`: SMEMBERS, HGETALL each id, keep rows whose
`session_id` matches, SREM the stale ids when `cleanup`, sort for stable
output. -/
def listConnections (st : RedisState) (sessionId : String) (cleanup : Bool) :
    List PresenceMember × RedisState :=
  let ids := (alGet st.sets (sessionSetKey sessionId)).getD []
  if ids.isEmpty then ([], st)
  else
    let rows := ids.map (fun cid => (cid, (alGet st.hashes (connHashKey cid)).getD []))
    let res := rows.foldl (listStep sessionId) ([], [])
    let st' := if cleanup && !res.2.isEmpty then srem st (sessionSetKey sessionId) res.2
               else st
    (res.1.mergeSort memberLe, st')

/-! ## Bridge stream events (src/llm/src/applib/api/routes.py)

`generate_stream_events` consumes the graph's event stream (no output is
yielded while consuming) and then emits the WebSocket events for one
turn. The graph stream and the channel post-script texts belong to the
generation collaborator and enter as inputs. -/

inductive Channel where
  | web
  | sms
  deriving DecidableEq, Repr

/-- The two `message_post_script` texts from `static_messages`
(collaborator-owned content, passed in). -/
structure StaticMessages where
  web : String
  sms : String

/-- Python `pat in s` for a non-empty pattern. -/
def containsSubstring (s pat : String) : Bool :=
  (s.splitOn pat).length > 1

/-- `get_message_post_script_for_channel`: the web text verbatim; the sms
text with `{LINK_TO_WEBAPP}` substituted when present and a link given. -/
def getMessagePostScriptForChannel (sm : StaticMessages) (channel : Channel)
    (webappLink : String) : String :=
  match channel with
  | .web => sm.web
  | .sms =>
      let text := sm.sms
      if containsSubstring text "{LINK_TO_WEBAPP}" && webappLink ≠ "" then
        text.replace "{LINK_TO_WEBAPP}" webappLink
      else text

/-- One block of a message content list (`{"type": "text", "text": ...}`,
a bare string, or anything else). -/
inductive Block where
  | bstr (s : String)
  | btext (t : Option String)
  | bother

/-- `message.content`: absent, a string, or a list of blocks. -/
inductive MsgContent where
  | cnone
  | cstr (s : String)
  | clist (bs : List Block)

structure ChunkMsg where
  content : MsgContent

/-- A stream chunk: not a dict, or a dict whose `messages` list may be
empty (missing/falsy `messages` reads as the empty list). -/
inductive Chunk where
  | notDict
  | dict (messages : List ChunkMsg)

/-- `_extract_text_from_chunk`: first message, first content block,
stripped text; empty string in every other shape. -/
def extractTextFromChunk : Chunk → String
  | .notDict => ""
  | .dict [] => ""
  | .dict (m :: _) =>
      match m.content with
      | .cnone => ""
      | .cstr s => pyStrip s
      | .clist [] => ""
      | .clist (b :: _) =>
          match b with
          | .bstr s => pyStrip s
          | .btext t => pyStrip (t.getD "")
          | .bother => ""

/-- One event of the graph's `astream_events` stream. -/
structure StreamEvent where
  eventType : String
  nodeName : String
  chunk : Chunk

def IN_SCOPE_NODES : List String := ["web_post_validate", "sms_post_validate"]

def ESCALATION_NODES : List String :=
  ["web_escalation_request_respond", "sms_escalation_request_respond"]

def OUT_OF_SCOPE_NODES : List String :=
  ["web_out_of_scope_respond", "sms_out_of_scope_respond"]

/-- One iteration of the `async for event` loop of
`generate_stream_events`: accumulate token text and track the response
path. -/
def streamStep (acc : List String × String) (e : StreamEvent) :
    List String × String :=
  if e.eventType ≠ "on_chain_stream" then acc
  else
    let text := extractTextFromChunk e.chunk
    if text = "" then acc
    else if e.nodeName ∈ IN_SCOPE_NODES then (acc.1 ++ [text], "in_scope")
    else if e.nodeName ∈ ESCALATION_NODES then (acc.1 ++ [text], "escalation")
    else if e.nodeName ∈ OUT_OF_SCOPE_NODES then (acc.1 ++ [text], "out_of_scope")
    else acc

/-- The `(token_parts, response_path)` pair after the whole stream
(`response_path` starts as `"in_scope"`). -/
def streamOutcome (events : List StreamEvent) : List String × String :=
  events.foldl streamStep ([], "in_scope")

/-- The events `generate_stream_events` yields, tagged by their `type`. -/
inductive OutEvent where
  | token (content : String)
  | static (content : String)
  | escalation (shouldEscalate : Bool)
  | endEvent (content : String)
  | errorEvent (content : String)
  deriving DecidableEq, Repr

/-- `generate_stream_events`: the graph stream is consumed first (so an
exception, modelled by `exc`, fires before any yield), then one `token`
with the joined content, the post-script `static` only on the in-scope
path, one `escalation`, one `end`; the except branch yields `error`,
`escalation false`, `end`. -/
def generateStreamEvents (sm : StaticMessages) (channel : Channel)
    (webappLink : String) (events : List StreamEvent) (exc : Option String) :
    List OutEvent :=
  match exc with
  | some m => [.errorEvent m, .escalation false, .endEvent ""]
  | none =>
      let (parts, path) := streamOutcome events
      [.token (String.join parts)] ++
      (if path = "in_scope" then
        [.static (getMessagePostScriptForChannel sm channel webappLink)]
       else []) ++
      [.escalation (path = "escalation"), .endEvent ""]

/-! ## Bridge start registry (src/llm/src/applib/ws_client.py)

`_active_tasks` is a mutex-guarded map from thread id to the in-flight
task; operations under the lock are modelled as atomic steps. -/

structure BridgeTask where
  taskId : Nat
  done : Bool
  deriving DecidableEq, Repr

/-- The `_active_tasks` registry. -/
abbrev TaskRegistry := List (String × BridgeTask)

/-- `start_connection`: reject blank thread ids and a missing relay URL;
under the lock, keep a live task, discard a finished one, and register a
fresh task otherwise. Returns the success flag and the new registry. -/
def startConnection (wsUrlSet : Bool) (reg : TaskRegistry) (threadId : String)
    (freshId : Nat) : Bool × TaskRegistry :=
  if pyStrip threadId = "" then (false, reg)
  else if !wsUrlSet then (false, reg)
  else
    let t := pyStrip threadId
    match alGet reg t with
    | some task =>
        if !task.done then (true, reg)
        else (true, alSet (alRemove reg t) t ⟨freshId, false⟩)
    | none => (true, alSet reg t ⟨freshId, false⟩)

/-- The `finally` block of `_run_connection`: the finishing task pops its
own registry entry under the lock. -/
def finishTask (reg : TaskRegistry) (threadId : String) : TaskRegistry :=
  alRemove reg threadId

/-- `is_connected`: a registered task that is not done. -/
def isConnected (reg : TaskRegistry) (threadId : String) : Bool :=
  match alGet reg threadId with
  | some task => !task.done
  | none => false

/-! ## Thread history (src/llm/src/applib/api/routes.py) -/

/-- One message of the reconstructed history, as `get_message_history`
hands it to the route: LangChain type, content, optional own id, optional
timestamp. -/
structure HistoryMessage where
  isHuman : Bool
  content : String
  msgId : Option String
  timestamp : Option String

/-- A `/thread/history` response item. -/
structure HistItem where
  itype : String
  content : String
  id : String
  sentAt : Option String
  readAt : Option String
  prevId : Option String

/-- Python `a or b` over optional strings (both `None` and `""` are falsy). -/
def pyOrOpt (a b : Option String) : Option String :=
  match a with
  | some s => if s ≠ "" then some s else b
  | none => b

/-- `_stable_message_id`: the hex digest of `"{thread_id}:{index}:{content}"`.
`sha256hex` stands for `hashlib.sha256(...).hexdigest()` (library code). -/
def stableMessageId (sha256hex : String → String) (threadId : String)
    (index : Nat) (content : String) : String :=
  sha256hex (threadId ++ ":" ++ toString index ++ ":" ++ content)

/-- `_message_to_history_item`: prefer the checkpoint id, else the
message's own id, else the deterministic fallback id. -/
def messageToHistoryItem (sha256hex : String → String) (msg : HistoryMessage)
    (previousId : Option String) (messageId : Option String) (threadId : String)
    (index : Nat) : HistItem :=
  let msgType := if msg.isHuman then "patient" else "ai"
  let msgId :=
    match pyOrOpt messageId msg.msgId with
    | some s =>
        if s ≠ "" then s else stableMessageId sha256hex threadId index msg.content
    | none => stableMessageId sha256hex threadId index msg.content
  { itype := msgType, content := msg.content, id := msgId
    sentAt := msg.timestamp, readAt := msg.timestamp, prevId := previousId }

/-- One item of the `thread_history` loop body, including the
missing-timestamp fallback for AI items. -/
def threadHistoryItem (sha256hex : String → String) (threadId : String)
    (msg : HistoryMessage) (checkpointId previousId lastTimestamp : Option String)
    (index : Nat) : HistItem :=
  let item := messageToHistoryItem sha256hex msg previousId checkpointId
    threadId index
  if item.itype = "ai" ∧ item.sentAt = none ∧ lastTimestamp ≠ none then
    { item with sentAt := lastTimestamp, readAt := lastTimestamp }
  else item

/-- `last_timestamp` after one loop iteration. -/
def threadHistoryNextTs (item : HistItem) (lastTimestamp : Option String) :
    Option String :=
  if item.sentAt ≠ none then item.sentAt else lastTimestamp

/-- The item loop of `thread_history`: thread the previous id, apply the
missing-timestamp fallback for AI items, remember the last timestamp. -/
def threadHistoryLoop (sha256hex : String → String) (threadId : String) :
    List (HistoryMessage × Option String) → Option String → Option String →
    Nat → List HistItem
  | [], _, _, _ => []
  | (msg, checkpointId) :: rest, previousId, lastTimestamp, index =>
      let item := threadHistoryItem sha256hex threadId msg checkpointId
        previousId lastTimestamp index
      item :: threadHistoryLoop sha256hex threadId rest (some item.id)
        (threadHistoryNextTs item lastTimestamp) (index + 1)

/-- `thread_history`: the message list of the response body. -/
def threadHistory (sha256hex : String → String) (threadId : String)
    (history : List (HistoryMessage × Option String)) : List HistItem :=
  threadHistoryLoop sha256hex threadId history none none 0

/-! ## Thread connect (src/ws_server/realtime/views.py) -/

/-- A `thread_connect` response: `ok` is the 200
`{"status": "ok", "thread_id", "llm_connected"}` body, `err` a
`{"detail"}` body with its status. -/
inductive HttpResp where
  | ok (threadId : String) (llmConnected : Bool)
  | err (status : Nat) (detail : String)
  deriving DecidableEq, Repr

/-- The LLM collaborator's reply to `POST /thread/connect`, when called. -/
structure LlmResp where
  status : Nat
  jsonParsed : Bool
  jsonThreadId : Option String
  jsonDetail : Option String
  text : String

inductive LlmCall where
  | unreachable (msg : String)
  | got (r : LlmResp)

/-- `thread_connect`: 503 without `LLM_SERVICE_URL`; 400 on a blank
`thread_id`; the operator short-circuit answers 200 without touching the
LLM; otherwise proxy to the LLM. The second component records whether the
LLM call was made. -/
def threadConnect (llmConfigured : Bool) (threadIdField userTypeField : Option String)
    (llm : LlmCall) : HttpResp × Bool :=
  if !llmConfigured then (.err 503 "LLM_SERVICE_URL not configured", false)
  else
    let threadId := pyStrip (threadIdField.getD "")
    if threadId = "" then (.err 400 "thread_id is required", false)
    else
      let userType := pyLower (pyStrip (userTypeField.getD ""))
      if userType = "operator" then (.ok threadId false, false)
      else
        match llm with
        | .unreachable m => (.err 502 m, true)
        | .got r =>
            if r.status = 200 then
              if r.jsonParsed then (.ok (r.jsonThreadId.getD threadId) true, true)
              else (.ok threadId true, true)
            else
              let detail :=
                if r.jsonParsed then r.jsonDetail.getD r.text
                else if r.text ≠ "" then r.text
                else "HTTP " ++ toString r.status
              (.err (if 400 ≤ r.status ∧ r.status < 600 then r.status else 502) detail,
               true)

/-! ## Theorems -/

/-- C1: an envelope published by an `ai`-role connection is delivered to
every patient recipient as a `broadcast` frame with `msg` and `data`
intact, and to every operator recipient as a `broadcast` frame whose
`data.content` is blanked and whose non-null `msg` becomes the empty
string. -/
theorem ai_broadcast_visibility_split (senderChannel recipChannel : String)
    (msg data : Option JVal) :
    (deliverEnvelope recipChannel (some "patient")
        (buildBroadcastPayload "ai" senderChannel msg data) =
      some { ftype := "broadcast", userType := "ai", msg := msg, data := data }) ∧
    (∀ fs m, data = some (.jobj fs) → hasKey fs "content" = true → msg = some m →
      deliverEnvelope recipChannel (some "operator")
          (buildBroadcastPayload "ai" senderChannel msg data) =
        some { ftype := "broadcast", userType := "ai", msg := some (.jstr "")
               data := some (.jobj (setKey fs "content" (.jstr ""))) }) ∧
    (∀ fs, data = some (.jobj fs) → hasKey fs "content" = true → msg = none →
      deliverEnvelope recipChannel (some "operator")
          (buildBroadcastPayload "ai" senderChannel msg data) =
        some { ftype := "broadcast", userType := "ai", msg := none
               data := some (.jobj (setKey fs "content" (.jstr ""))) }) := by
  refine ⟨?_, ?_, ?_⟩
  · simp [deliverEnvelope, buildBroadcastPayload, broadcastMessageFrame]
  · intro fs m hd hk hm
    subst hd; subst hm
    simp [deliverEnvelope, buildBroadcastPayload, broadcastMessageFrame, hk]
  · intro fs hd hk hm
    subst hd; subst hm
    simp [deliverEnvelope, buildBroadcastPayload, broadcastMessageFrame, hk]

/-- C1 witness at a concrete envelope. -/
theorem ai_broadcast_visibility_split_witness :
    deliverEnvelope "r1" (some "operator")
        (buildBroadcastPayload "ai" "s1" (some (.jstr "hello"))
          (some (.jobj [("type", .jstr "token"), ("content", .jstr "hello")]))) =
      some { ftype := "broadcast", userType := "ai", msg := some (.jstr "")
             data := some (.jobj [("type", .jstr "token"), ("content", .jstr "")]) } :=
  (ai_broadcast_visibility_split "s1" "r1" (some (.jstr "hello"))
      (some (.jobj [("type", .jstr "token"), ("content", .jstr "hello")]))).2.1
    [("type", .jstr "token"), ("content", .jstr "hello")] (.jstr "hello") rfl rfl rfl

/-- C2: an envelope published by an operator-role connection is delivered
to no recipient whose role is not `patient`, and to every patient
recipient other than the sender as a full `session_message` frame. -/
theorem operator_messages_only_to_patients (senderChannel : String)
    (msg data : Option JVal) :
    (∀ recipChannel recipRole, recipRole ≠ some "patient" →
      deliverEnvelope recipChannel recipRole
        (buildBroadcastPayload "operator" senderChannel msg data) = none) ∧
    (∀ recipChannel, recipChannel ≠ senderChannel →
      deliverEnvelope recipChannel (some "patient")
          (buildBroadcastPayload "operator" senderChannel msg data) =
        some { ftype := "session_message", userType := "operator"
               msg := msg, data := data }) := by
  constructor
  · intro recipChannel recipRole hrole
    by_cases hch : senderChannel = recipChannel
    · simp [deliverEnvelope, buildBroadcastPayload, sessionMessageFrame, hch]
    · simp [deliverEnvelope, buildBroadcastPayload, sessionMessageFrame, hch, hrole]
  · intro recipChannel hch
    have hch' : ¬senderChannel = recipChannel := fun h => hch h.symm
    simp [deliverEnvelope, buildBroadcastPayload, sessionMessageFrame, hch']

/-- C2 witness at a concrete envelope. -/
theorem operator_messages_only_to_patients_witness :
    deliverEnvelope "r1" (some "ai")
        (buildBroadcastPayload "operator" "s1" (some (.jstr "hi")) none) = none ∧
    deliverEnvelope "r2" (some "patient")
        (buildBroadcastPayload "operator" "s1" (some (.jstr "hi")) none) =
      some { ftype := "session_message", userType := "operator"
             msg := some (.jstr "hi"), data := none } :=
  ⟨(operator_messages_only_to_patients "s1" (some (.jstr "hi")) none).1 "r1"
      (some "ai") (by simp),
   (operator_messages_only_to_patients "s1" (some (.jstr "hi")) none).2 "r2"
      (by simp)⟩

/-- C3 counterexample: on the ai-origin (`broadcast`) path the handler has
no sender-channel test, so the publishing connection itself receives its
own frame — the claim that no self-delivery occurs on both paths is
false. -/
theorem no_self_delivery_counterexample :
    deliverEnvelope "ch0" (some "ai")
        (buildBroadcastPayload "ai" "ch0" (some (.jstr "hello")) none) =
      some { ftype := "broadcast", userType := "ai"
             msg := some (.jstr "hello"), data := none } := by
  rfl

/-- C3 amended: self-delivery is suppressed on the `session_message` path
(every non-ai sender), while on the `broadcast` path (ai sender) the
handler delivers to every subscribed connection, the sender included. -/
theorem no_self_delivery_amended (senderRole senderChannel : String)
    (msg data : Option JVal) (recipRole : Option String) :
    (senderRole ≠ "ai" →
      deliverEnvelope senderChannel recipRole
        (buildBroadcastPayload senderRole senderChannel msg data) = none) ∧
    (senderRole = "ai" →
      (deliverEnvelope senderChannel recipRole
        (buildBroadcastPayload senderRole senderChannel msg data)).isSome = true) := by
  constructor
  · intro h
    simp [deliverEnvelope, buildBroadcastPayload, sessionMessageFrame, h]
  · intro h
    subst h
    simp [deliverEnvelope, buildBroadcastPayload]

/-- C3 amended witness: a patient sender never hears its own publication;
an ai sender does get a frame back. -/
theorem no_self_delivery_amended_witness :
    deliverEnvelope "c" (some "patient")
        (buildBroadcastPayload "patient" "c" (some (.jstr "m")) none) = none ∧
    (deliverEnvelope "c" (some "ai")
        (buildBroadcastPayload "ai" "c" (some (.jstr "m")) none)).isSome = true :=
  ⟨(no_self_delivery_amended "patient" "c" (some (.jstr "m")) none
      (some "patient")).1 (by simp),
   (no_self_delivery_amended "ai" "c" (some (.jstr "m")) none (some "ai")).2 rfl⟩

/-- The dispatch never mutates the connection state. -/
theorem receiveAdmitted_fst (st : ConnState) (msg : List (String × JVal))
    (acc : List Action) : (receiveAdmitted st msg acc).1 = st := by
  unfold receiveAdmitted
  repeat' split
  all_goals rfl

/-- With presence registered, the dispatch keeps every accumulated action
and adds no close. -/
theorem receiveAdmitted_actions (st : ConnState) (msg : List (String × JVal))
    (acc : List Action) (hreg : st.presenceRegistered = true) :
    (∀ a ∈ acc, a ∈ (receiveAdmitted st msg acc).2) ∧
    (∀ c, Action.close c ∈ (receiveAdmitted st msg acc).2 → Action.close c ∈ acc) := by
  unfold receiveAdmitted
  rw [hreg]
  repeat' split
  all_goals constructor
  all_goals intro x hx
  all_goals simp_all

/-- A latched role is immutable: any later `receive` leaves the state
untouched. -/
theorem receive_role_immutable (st : ConnState) (msg : List (String × JVal))
    (r : String) (h : st.userType = some r) : (receive st msg).1 = st := by
  unfold receive
  rw [h]
  exact receiveAdmitted_fst st msg []

/-- C5 counterexample: a first message carrying only the legacy alias
`{"from": "patient"}` — no `user_type` value at all — is admitted: the
role is latched, presence is written, and no error or close is issued,
contradicting the claim that a missing `user_type` closes with 4401. -/
theorem admission_user_type_counterexample :
    receive { sessionId := "s1", connectionId := "c1", channelName := "ch1",
              userType := none, presenceRegistered := false,
              presenceTaskRunning := false }
        [("from", .jstr "patient")] =
      ({ sessionId := "s1", connectionId := "c1", channelName := "ch1",
         userType := some "patient", presenceRegistered := true,
         presenceTaskRunning := true },
       [Action.upsertPresence "s1" "c1" "patient" 120, Action.startRefreshTask,
        Action.upsertPresence "s1" "c1" "patient" 120,
        Action.send (.jobj [("type", .jstr "echo"),
          ("data", .jobj [("from", .jstr "patient")])])]) := by
  rfl

/-- C5 amended: the first message must carry the role under `user_type`
or, when that is missing or falsy, under the legacy alias `from`; a valid
value (stripped, lowercased) is latched and presence written, with no
close; an effective value that is missing, not a string, blank, or not
one of patient/operator/ai draws a structured error and a 4401 close with
no presence write; a latched role is immutable. -/
theorem admission_amended (st : ConnState) (msg : List (String × JVal))
    (h : st.userType = none) :
    (∀ s, effectiveUserType msg = some (.jstr s) →
      pyLower (pyStrip s) ∈ ALLOWED_USER_TYPES →
      (receive st msg).1.userType = some (pyLower (pyStrip s)) ∧
      Action.upsertPresence st.sessionId st.connectionId (pyLower (pyStrip s))
          PRESENCE_TTL_SECONDS ∈ (receive st msg).2 ∧
      ∀ c, Action.close c ∉ (receive st msg).2) ∧
    (∀ s, effectiveUserType msg = some (.jstr s) → pyStrip s ≠ "" →
      pyLower (pyStrip s) ∉ ALLOWED_USER_TYPES →
      receive st msg = (st, [.send invalidUserTypeFrame, .close 4401])) ∧
    (∀ s, effectiveUserType msg = some (.jstr s) → pyStrip s = "" →
      receive st msg = (st, [.send userTypeRequiredFrame, .close 4401])) ∧
    (effectiveUserType msg = none →
      receive st msg = (st, [.send userTypeRequiredFrame, .close 4401])) ∧
    (∀ v, effectiveUserType msg = some v → (∀ s, v ≠ .jstr s) →
      receive st msg = (st, [.send userTypeRequiredFrame, .close 4401])) ∧
    (∀ st2 msg2 r, st2.userType = some r → (receive st2 msg2).1 = st2) := by
  refine ⟨?_, ?_, ?_, ?_, ?_, fun st2 msg2 r h2 => receive_role_immutable st2 msg2 r h2⟩
  · intro s heff hmem
    have htrim : pyStrip s ≠ "" := by
      intro hempty
      rw [hempty] at hmem
      revert hmem
      decide
    have hstep : receive st msg =
        receiveAdmitted
          { st with userType := some (pyLower (pyStrip s)), presenceRegistered := true,
                    presenceTaskRunning := true } msg
          ([Action.upsertPresence st.sessionId st.connectionId (pyLower (pyStrip s))
              PRESENCE_TTL_SECONDS] ++
           (if st.presenceTaskRunning then [] else [Action.startRefreshTask])) := by
      unfold receive
      rw [h, heff]
      simp [htrim, hmem]
    set st' : ConnState :=
      { st with userType := some (pyLower (pyStrip s)), presenceRegistered := true,
                presenceTaskRunning := true } with hst'
    have hacts := receiveAdmitted_actions st' msg
      ([Action.upsertPresence st.sessionId st.connectionId (pyLower (pyStrip s))
          PRESENCE_TTL_SECONDS] ++
       (if st.presenceTaskRunning then [] else [Action.startRefreshTask])) rfl
    refine ⟨?_, ?_, ?_⟩
    · rw [hstep, receiveAdmitted_fst]
    · rw [hstep]
      exact hacts.1 _ (by simp)
    · intro c hc
      rw [hstep] at hc
      have := hacts.2 c hc
      revert this
      split <;> simp
  · intro s heff htrim hmem
    unfold receive
    rw [h, heff]
    simp [htrim, hmem]
  · intro s heff htrim
    unfold receive
    rw [h, heff]
    simp [htrim]
  · intro heff
    unfold receive
    rw [h, heff]
  · intro v heff hnot
    unfold receive
    rw [h, heff]
    cases v with
    | jstr s => exact absurd rfl (hnot s)
    | jnull => rfl
    | jbool b => rfl
    | jnum n => rfl
    | jarr xs => rfl
    | jobj fs => rfl

/-- C5 amended witness: `" Patient "` under the `user_type` key is
normalized and latched; a bogus value closes with 4401. -/
theorem admission_amended_witness :
    (receive { sessionId := "s1", connectionId := "c1", channelName := "ch1",
               userType := none, presenceRegistered := false,
               presenceTaskRunning := false }
        [("user_type", .jstr " Patient ")]).1.userType = some "patient" ∧
    receive { sessionId := "s1", connectionId := "c1", channelName := "ch1",
              userType := none, presenceRegistered := false,
              presenceTaskRunning := false }
        [("user_type", .jstr "admin")] =
      ({ sessionId := "s1", connectionId := "c1", channelName := "ch1",
         userType := none, presenceRegistered := false,
         presenceTaskRunning := false },
       [.send invalidUserTypeFrame, .close 4401]) :=
  ⟨((admission_amended _ [("user_type", .jstr " Patient ")] rfl).1 " Patient "
      rfl (by decide)).1,
   (admission_amended _ [("user_type", .jstr "admin")] rfl).2.1 "admin" rfl
      (by decide) (by decide)⟩

/-- C6 counterexample: a `broadcast` frame from a connection with no role
yet, carrying a valid `user_type`, is not rejected: the same message
admits the connection and the payload is published to the group,
contradicting the claim that any pre-admission broadcast closes with
4401 and is never published. -/
theorem broadcast_before_admit_counterexample :
    receive { sessionId := "s1", connectionId := "c1", channelName := "ch1",
              userType := none, presenceRegistered := false,
              presenceTaskRunning := false }
        [("type", .jstr "broadcast"), ("user_type", .jstr "patient"),
         ("msg", .jstr "hi")] =
      ({ sessionId := "s1", connectionId := "c1", channelName := "ch1",
         userType := some "patient", presenceRegistered := true,
         presenceTaskRunning := true },
       [Action.upsertPresence "s1" "c1" "patient" 120, Action.startRefreshTask,
        Action.upsertPresence "s1" "c1" "patient" 120,
        Action.groupSend
          ⟨"session_message", "patient", some (.jstr "hi"), none, "ch1", "patient"⟩]) := by
  rfl

/-- C6 amended: a `broadcast` from an unadmitted connection is rejected
with a structured error and a 4401 close, and never published, provided
the frame carries no valid role value (under `user_type` or the legacy
`from` alias); a frame that does carry one admits the connection and is
published. -/
theorem broadcast_before_admit_amended (st : ConnState)
    (msg : List (String × JVal)) (h : st.userType = none)
    (hb : msgTypeIs msg "broadcast" = true)
    (hfail : ∀ s, effectiveUserType msg = some (.jstr s) →
      pyLower (pyStrip s) ∉ ALLOWED_USER_TYPES) :
    (∃ f, receive st msg = (st, [Action.send f, Action.close 4401])) ∧
    ∀ e, Action.groupSend e ∉ (receive st msg).2 := by
  have hmain : ∃ f, receive st msg = (st, [Action.send f, Action.close 4401]) := by
    cases heff : effectiveUserType msg with
    | none =>
        exact ⟨userTypeRequiredFrame, by unfold receive; rw [h, heff]⟩
    | some v =>
        cases v with
        | jstr s =>
            by_cases htrim : pyStrip s = ""
            · exact ⟨userTypeRequiredFrame, by unfold receive; rw [h, heff]; simp [htrim]⟩
            · exact ⟨invalidUserTypeFrame, by
                unfold receive; rw [h, heff]; simp [htrim, hfail s heff]⟩
        | jnull => exact ⟨userTypeRequiredFrame, by unfold receive; rw [h, heff]⟩
        | jbool b => exact ⟨userTypeRequiredFrame, by unfold receive; rw [h, heff]⟩
        | jnum n => exact ⟨userTypeRequiredFrame, by unfold receive; rw [h, heff]⟩
        | jarr xs => exact ⟨userTypeRequiredFrame, by unfold receive; rw [h, heff]⟩
        | jobj fs => exact ⟨userTypeRequiredFrame, by unfold receive; rw [h, heff]⟩
  refine ⟨hmain, ?_⟩
  obtain ⟨f, hf⟩ := hmain
  intro e he
  rw [hf] at he
  simp at he

/-- C6 amended witness: a pre-admission broadcast with no role value is
rejected and unpublished. -/
theorem broadcast_before_admit_amended_witness :
    (∃ f, receive ⟨"s1", "c1", "ch1", none, false, false⟩
        [("type", .jstr "broadcast"), ("msg", .jstr "hi")] =
      (⟨"s1", "c1", "ch1", none, false, false⟩,
       [Action.send f, Action.close 4401])) ∧
    ∀ e, Action.groupSend e ∉
      (receive ⟨"s1", "c1", "ch1", none, false, false⟩
        [("type", .jstr "broadcast"), ("msg", .jstr "hi")]).2 :=
  broadcast_before_admit_amended _ _ rfl rfl
    (fun s hs => by simp [effectiveUserType, getField] at hs)

/-- C4: per turn the bridge emits tokens, then at most one `static`
(exactly when the turn ends on the in-scope path), then exactly one
`escalation` with its boolean, then exactly one `end`; an exception
during generation yields an `error` event that is followed by an `end`. -/
theorem bridge_event_sequence (sm : StaticMessages) (channel : Channel)
    (webappLink : String) (events : List StreamEvent) (exc : Option String) :
    (∀ m, exc = some m →
      generateStreamEvents sm channel webappLink events exc =
        [.errorEvent m, .escalation false, .endEvent ""]) ∧
    (exc = none →
      ∃ tok staticPart b,
        generateStreamEvents sm channel webappLink events exc =
          [OutEvent.token tok] ++ staticPart ++ [.escalation b, .endEvent ""] ∧
        (staticPart = [] ∨ ∃ s, staticPart = [OutEvent.static s]) ∧
        (staticPart ≠ [] ↔ (streamOutcome events).2 = "in_scope") ∧
        (b = true ↔ (streamOutcome events).2 = "escalation")) := by
  constructor
  · intro m hm
    subst hm
    rfl
  · intro hnone
    subst hnone
    unfold generateStreamEvents
    rcases hsp : streamOutcome events with ⟨parts, path⟩
    by_cases hpath : path = "in_scope"
    · refine ⟨String.join parts,
        [OutEvent.static (getMessagePostScriptForChannel sm channel webappLink)],
        decide (path = "escalation"), ?_, ?_, ?_, ?_⟩
      · simp [hsp, hpath]
      · exact Or.inr ⟨_, rfl⟩
      · simp [hsp, hpath]
      · simp [hsp]
    · refine ⟨String.join parts, [], decide (path = "escalation"), ?_, ?_, ?_, ?_⟩
      · simp [hsp, hpath]
      · exact Or.inl rfl
      · simp [hsp, hpath]
      · simp [hsp]

/-- C4 witness: the error path on an empty stream, and the normal path
shape on an empty stream. -/
theorem bridge_event_sequence_witness :
    generateStreamEvents ⟨"anything else", "reply stop"⟩ Channel.web "" []
        (some "boom") =
      [.errorEvent "boom", .escalation false, .endEvent ""] ∧
    (∃ tok staticPart b,
      generateStreamEvents ⟨"anything else", "reply stop"⟩ Channel.web "" [] none =
        [OutEvent.token tok] ++ staticPart ++ [.escalation b, .endEvent ""] ∧
      (staticPart = [] ∨ ∃ s, staticPart = [OutEvent.static s]) ∧
      (staticPart ≠ [] ↔ (streamOutcome ([] : List StreamEvent)).2 = "in_scope") ∧
      (b = true ↔ (streamOutcome ([] : List StreamEvent)).2 = "escalation")) :=
  ⟨(bridge_event_sequence ⟨"anything else", "reply stop"⟩ Channel.web "" []
      (some "boom")).1 "boom" rfl,
   (bridge_event_sequence ⟨"anything else", "reply stop"⟩ Channel.web "" []
      none).2 rfl⟩

/-- The registry key invariant: at most one entry per thread id. -/
def keysNodup {α : Type} (l : List (String × α)) : Prop :=
  (l.map Prod.fst).Nodup

theorem alGet_alSet_self {α : Type} (l : List (String × α)) (k : String) (v : α) :
    alGet (alSet l k v) k = some v := by
  induction l with
  | nil => simp [alSet, alGet]
  | cons p rest ih =>
      obtain ⟨k', v'⟩ := p
      by_cases h : k' = k
      · subst h
        simp [alSet, alGet]
      · simp [alSet, alGet, h, ih]

theorem alGet_alRemove_self {α : Type} (l : List (String × α)) (k : String) :
    alGet (alRemove l k) k = none := by
  induction l with
  | nil => rfl
  | cons p rest ih =>
      obtain ⟨k', v'⟩ := p
      by_cases h : k' = k
      · simpa [alRemove, List.filter_cons, h] using ih
      · simpa [alRemove, List.filter_cons, h, alGet] using ih

theorem alSet_keys {α : Type} (l : List (String × α)) (k : String) (v : α) :
    (alSet l k v).map Prod.fst =
      if k ∈ l.map Prod.fst then l.map Prod.fst else l.map Prod.fst ++ [k] := by
  induction l with
  | nil => simp [alSet]
  | cons p rest ih =>
      obtain ⟨k', v'⟩ := p
      by_cases h : k' = k
      · subst h
        simp [alSet]
      · have h' : ¬k = k' := fun hk => h hk.symm
        simp [alSet, h, h', ih]
        split
        · next hk => simp [List.mem_cons, hk, h']
        · next hk => simp [List.mem_cons, hk, h']

theorem keysNodup_alSet {α : Type} (l : List (String × α)) (k : String) (v : α)
    (h : keysNodup l) : keysNodup (alSet l k v) := by
  unfold keysNodup at h ⊢
  rw [alSet_keys]
  split
  · exact h
  · next hk =>
      refine List.Nodup.append h (List.nodup_singleton k) ?_
      intro a ha hb
      simp at hb
      exact hk (hb ▸ ha)

theorem keysNodup_alRemove {α : Type} (l : List (String × α)) (k : String)
    (h : keysNodup l) : keysNodup (alRemove l k) :=
  List.Nodup.sublist (List.Sublist.map Prod.fst (List.filter_sublist l)) h

/-- C7: `start_connection` is idempotent per session id — a live task is
kept and the call still succeeds without registering a new one, a
finished task is discarded for a fresh one, the registry keeps at most
one entry per id, and a finishing task removes its own entry. -/
theorem start_bridge_idempotent (reg : TaskRegistry) (threadId : String)
    (freshId : Nat) (hn : keysNodup reg) (ht : pyStrip threadId ≠ "") :
    (∀ task, alGet reg (pyStrip threadId) = some task → task.done = false →
      startConnection true reg threadId freshId = (true, reg)) ∧
    (∀ task, alGet reg (pyStrip threadId) = some task → task.done = true →
      (startConnection true reg threadId freshId).1 = true ∧
      alGet (startConnection true reg threadId freshId).2 (pyStrip threadId) =
        some ⟨freshId, false⟩) ∧
    keysNodup (startConnection true reg threadId freshId).2 ∧
    (∀ tid, alGet (finishTask reg tid) tid = none) := by
  have hbody : startConnection true reg threadId freshId =
      (match alGet reg (pyStrip threadId) with
       | some task =>
           if !task.done then (true, reg)
           else (true, alSet (alRemove reg (pyStrip threadId)) (pyStrip threadId)
             ⟨freshId, false⟩)
       | none => (true, alSet reg (pyStrip threadId) ⟨freshId, false⟩)) := by
    unfold startConnection
    simp [ht]
  refine ⟨?_, ?_, ?_, fun tid => alGet_alRemove_self reg tid⟩
  · intro task hget hdone
    rw [hbody, hget]
    simp [hdone]
  · intro task hget hdone
    rw [hbody, hget]
    simp [hdone]
    exact alGet_alSet_self _ _ _
  · rw [hbody]
    cases hget : alGet reg (pyStrip threadId) with
    | none => exact keysNodup_alSet _ _ _ hn
    | some task =>
        by_cases hdone : task.done
        · simp [hdone]
          exact keysNodup_alSet _ _ _ (keysNodup_alRemove _ _ hn)
        · simp [hdone]
          exact hn

/-- C7 witness: a live task for `s4` is kept; finishing removes the entry. -/
theorem start_bridge_idempotent_witness :
    startConnection true [("s4", ⟨7, false⟩)] "s4" 9 =
      (true, [("s4", ⟨7, false⟩)]) ∧
    alGet (finishTask [("s4", (⟨7, false⟩ : BridgeTask))] "s4") "s4" = none :=
  ⟨(start_bridge_idempotent [("s4", ⟨7, false⟩)] "s4" 9
      (by simp [keysNodup]) (by decide)).1 ⟨7, false⟩ rfl rfl,
   (start_bridge_idempotent [("s4", ⟨7, false⟩)] "s4" 9
      (by simp [keysNodup]) (by decide)).2.2.2 "s4"⟩

/-- The loop body never changes the threaded previous id. -/
theorem threadHistoryItem_prevId (sha256hex : String → String) (threadId : String)
    (msg : HistoryMessage) (cid p ts : Option String) (idx : Nat) :
    (threadHistoryItem sha256hex threadId msg cid p ts idx).prevId = p := by
  simp only [threadHistoryItem, messageToHistoryItem]
  repeat' split
  all_goals rfl

/-- The timestamp fallback never changes the item id. -/
theorem threadHistoryItem_id (sha256hex : String → String) (threadId : String)
    (msg : HistoryMessage) (cid p ts : Option String) (idx : Nat) :
    (threadHistoryItem sha256hex threadId msg cid p ts idx).id =
      (messageToHistoryItem sha256hex msg p cid threadId idx).id := by
  simp only [threadHistoryItem]
  split <;> rfl

theorem threadHistoryLoop_length (sha256hex : String → String) (threadId : String)
    (hist : List (HistoryMessage × Option String)) (p ts : Option String)
    (idx : Nat) :
    (threadHistoryLoop sha256hex threadId hist p ts idx).length = hist.length := by
  induction hist generalizing p ts idx with
  | nil => rfl
  | cons hd rest ih =>
      obtain ⟨msg, cid⟩ := hd
      simp [threadHistoryLoop, ih]

/-- The first produced item carries the threaded previous id, and each
later item carries its predecessor's id. -/
theorem threadHistoryLoop_chain (sha256hex : String → String) (threadId : String)
    (hist : List (HistoryMessage × Option String)) (p ts : Option String)
    (idx : Nat) :
    (∀ h0 : 0 < (threadHistoryLoop sha256hex threadId hist p ts idx).length,
      ((threadHistoryLoop sha256hex threadId hist p ts idx).get ⟨0, h0⟩).prevId = p) ∧
    (∀ i (hi : i + 1 < (threadHistoryLoop sha256hex threadId hist p ts idx).length),
      ((threadHistoryLoop sha256hex threadId hist p ts idx).get ⟨i + 1, hi⟩).prevId =
        some (((threadHistoryLoop sha256hex threadId hist p ts idx).get
          ⟨i, Nat.lt_of_succ_lt hi⟩).id)) := by
  induction hist generalizing p ts idx with
  | nil =>
      constructor
      · intro h0
        simp [threadHistoryLoop] at h0
      · intro i hi
        simp [threadHistoryLoop] at hi
  | cons hd rest ih =>
      obtain ⟨msg, cid⟩ := hd
      constructor
      · intro h0
        exact threadHistoryItem_prevId sha256hex threadId msg cid p ts idx
      · intro i hi
        cases i with
        | zero => exact (ih _ _ _).1 _
        | succ j => exact (ih _ _ _).2 j _

theorem threadHistory_length (sha256hex : String → String) (threadId : String)
    (history : List (HistoryMessage × Option String)) :
    (threadHistory sha256hex threadId history).length = history.length :=
  threadHistoryLoop_length sha256hex threadId history none none 0

/-- A message whose checkpoint id and own id are both falsy gets the
deterministic fallback id at its position. -/
theorem threadHistoryLoop_id (sha256hex : String → String) (threadId : String)
    (hist : List (HistoryMessage × Option String)) (p ts : Option String)
    (idx : Nat) :
    ∀ i (hi : i < hist.length),
      (pyOrOpt (hist.get ⟨i, hi⟩).2 (hist.get ⟨i, hi⟩).1.msgId = none ∨
       pyOrOpt (hist.get ⟨i, hi⟩).2 (hist.get ⟨i, hi⟩).1.msgId = some "") →
      ((threadHistoryLoop sha256hex threadId hist p ts idx).get
        ⟨i, by rw [threadHistoryLoop_length]; exact hi⟩).id =
        stableMessageId sha256hex threadId (idx + i) (hist.get ⟨i, hi⟩).1.content := by
  induction hist generalizing p ts idx with
  | nil =>
      intro i hi
      exact absurd hi (by simp)
  | cons hd rest ih =>
      obtain ⟨msg, cid⟩ := hd
      intro i hi hfalsy
      cases i with
      | zero =>
          show (threadHistoryItem sha256hex threadId msg cid p ts idx).id =
            stableMessageId sha256hex threadId (idx + 0) msg.content
          rw [threadHistoryItem_id]
          simp only [messageToHistoryItem, Nat.add_zero]
          rcases hfalsy with hf | hf
          · have hf' : pyOrOpt cid msg.msgId = none := hf
            simp [hf']
          · have hf' : pyOrOpt cid msg.msgId = some "" := hf
            simp [hf']
      | succ j =>
          have harith : idx + (j + 1) = (idx + 1) + j := by omega
          rw [harith]
          exact ih _ _ (idx + 1) j (Nat.lt_of_succ_lt_succ hi) hfalsy

/-- C8: in every `thread_history` response the item count matches the
history, the first item's `previous_message_id` is null, each later item
points at its predecessor's id, and a message with no collaborator id
gets the deterministic hash of `(thread_id, index, content)`. -/
theorem thread_history_chain (sha256hex : String → String) (threadId : String)
    (history : List (HistoryMessage × Option String)) :
    (threadHistory sha256hex threadId history).length = history.length ∧
    (∀ h0 : 0 < (threadHistory sha256hex threadId history).length,
      ((threadHistory sha256hex threadId history).get ⟨0, h0⟩).prevId = none) ∧
    (∀ i (hi : i + 1 < (threadHistory sha256hex threadId history).length),
      ((threadHistory sha256hex threadId history).get ⟨i + 1, hi⟩).prevId =
        some (((threadHistory sha256hex threadId history).get
          ⟨i, Nat.lt_of_succ_lt hi⟩).id)) ∧
    (∀ i (hi : i < history.length),
      (pyOrOpt (history.get ⟨i, hi⟩).2 (history.get ⟨i, hi⟩).1.msgId = none ∨
       pyOrOpt (history.get ⟨i, hi⟩).2 (history.get ⟨i, hi⟩).1.msgId = some "") →
      ((threadHistory sha256hex threadId history).get
        ⟨i, by rw [threadHistory_length]; exact hi⟩).id =
        stableMessageId sha256hex threadId i (history.get ⟨i, hi⟩).1.content) := by
  refine ⟨threadHistory_length sha256hex threadId history,
    (threadHistoryLoop_chain sha256hex threadId history none none 0).1,
    (threadHistoryLoop_chain sha256hex threadId history none none 0).2, ?_⟩
  intro i hi hfalsy
  have := threadHistoryLoop_id sha256hex threadId history none none 0 i hi hfalsy
  rw [Nat.zero_add] at this
  exact this

/-- C8 witness on a two-message history: first item unchained, second
chained to the first, fallback id at index 1. -/
theorem thread_history_chain_witness :
    ((threadHistory (fun s => "sha-" ++ s) "t1"
        [(⟨true, "hi", none, none⟩, some "cp1"),
         (⟨false, "yo", none, none⟩, none)]).get ⟨0, by decide⟩).prevId = none ∧
    ((threadHistory (fun s => "sha-" ++ s) "t1"
        [(⟨true, "hi", none, none⟩, some "cp1"),
         (⟨false, "yo", none, none⟩, none)]).get ⟨1, by decide⟩).prevId =
      some (((threadHistory (fun s => "sha-" ++ s) "t1"
        [(⟨true, "hi", none, none⟩, some "cp1"),
         (⟨false, "yo", none, none⟩, none)]).get ⟨0, by decide⟩).id) ∧
    ((threadHistory (fun s => "sha-" ++ s) "t1"
        [(⟨true, "hi", none, none⟩, some "cp1"),
         (⟨false, "yo", none, none⟩, none)]).get ⟨1, by decide⟩).id =
      stableMessageId (fun s => "sha-" ++ s) "t1" 1 "yo" :=
  ⟨(thread_history_chain (fun s => "sha-" ++ s) "t1"
      [(⟨true, "hi", none, none⟩, some "cp1"),
       (⟨false, "yo", none, none⟩, none)]).2.1 (by decide),
   (thread_history_chain (fun s => "sha-" ++ s) "t1"
      [(⟨true, "hi", none, none⟩, some "cp1"),
       (⟨false, "yo", none, none⟩, none)]).2.2.1 0 (by decide),
   (thread_history_chain (fun s => "sha-" ++ s) "t1"
      [(⟨true, "hi", none, none⟩, some "cp1"),
       (⟨false, "yo", none, none⟩, none)]).2.2.2 1 (by decide) (Or.inl rfl)⟩

/-- C9 counterexample: a body with the non-empty, whitespace-only
`thread_id` `" "` and `user_type` `"operator"` is answered with 400, not
with the claimed 200 `{"status": "ok", ...}` body. -/
theorem thread_connect_operator_counterexample :
    threadConnect true (some " ") (some "operator") (.unreachable "down") =
      (.err 400 "thread_id is required", false) := by
  rfl

/-- C9 amended: with the LLM service URL configured, a body whose
`thread_id` is non-empty after stripping and whose `user_type`, stripped
and lowercased, is `operator` gets 200 with
`{"status": "ok", "thread_id": <stripped thread_id>, "llm_connected": false}`
and no LLM call is made. -/
theorem thread_connect_operator_amended (threadId userType : String)
    (llm : LlmCall) (ht : pyStrip threadId ≠ "")
    (hu : pyLower (pyStrip userType) = "operator") :
    threadConnect true (some threadId) (some userType) llm =
      (.ok (pyStrip threadId) false, false) := by
  unfold threadConnect
  simp [ht, hu]

/-- C9 amended witness. -/
theorem thread_connect_operator_amended_witness :
    threadConnect true (some "t1") (some " Operator ") (.unreachable "down") =
      (.ok "t1" false, false) :=
  thread_connect_operator_amended "t1" " Operator " (.unreachable "down")
    (by decide) (by decide)

/-- The member loop never yields a member for an id whose row does not
carry the matching `session_id` field. -/
theorem listStep_foldl_not_cid (sid cid : String)
    (rows : List (String × List (String × String)))
    (acc : List PresenceMember × List String)
    (hacc : ∀ m ∈ acc.1, m.connection_id ≠ cid)
    (hrows : ∀ r ∈ rows, r.1 = cid → alGet r.2 "session_id" ≠ some sid) :
    ∀ m ∈ (rows.foldl (listStep sid) acc).1, m.connection_id ≠ cid := by
  induction rows generalizing acc with
  | nil => exact hacc
  | cons r rest ih =>
      refine ih (listStep sid acc r) ?_
        (fun r' hr' => hrows r' (List.mem_cons_of_mem r hr'))
      intro m hm
      obtain ⟨rcid, rdata⟩ := r
      unfold listStep at hm
      by_cases hempty : rdata.isEmpty
      · simp [hempty] at hm
        exact hacc m hm
      · by_cases hsess : alGet rdata "session_id" = some sid
        · simp [hempty, hsess] at hm
          rcases hm with hm | hm
          · exact hacc m hm
          · intro hceq
            have : rcid = cid := by
              rw [← hceq, hm]
            exact hrows (rcid, rdata) (List.mem_cons_self _ _) this hsess
        · simp [hempty, hsess] at hm
          exact hacc m hm

/-- `list_connections` never returns an id whose hash lacks the matching
`session_id` field. -/
theorem listConnections_not_cid (st : RedisState) (sid cid : String)
    (hsess : alGet ((alGet st.hashes (connHashKey cid)).getD []) "session_id" ≠
      some sid) :
    ∀ m ∈ (listConnections st sid true).1, m.connection_id ≠ cid := by
  intro m hm
  unfold listConnections at hm
  by_cases hempty : ((alGet st.sets (sessionSetKey sid)).getD []).isEmpty
  · rw [if_pos hempty] at hm
    simp at hm
  · rw [if_neg hempty] at hm
    have hm' : m ∈ ((((alGet st.sets (sessionSetKey sid)).getD []).map
        (fun cid => (cid, (alGet st.hashes (connHashKey cid)).getD []))).foldl
          (listStep sid) ([], [])).1 :=
      (List.mergeSort_perm _ memberLe).mem_iff.mp hm
    refine listStep_foldl_not_cid sid cid _ ([], []) (by simp) ?_ m hm'
    intro r hr hrc
    obtain ⟨a, _, rfl⟩ := List.mem_map.mp hr
    simp only at hrc
    rw [hrc]
    exact hsess

/-- C10: `refresh_connection` on a connection with no presence record
returns false yet is not read-only: it creates the hash with only a
`last_seen` field and sets a TTL, the session sets are untouched, and
`list_connections` never returns the connection (its `session_id` field
is absent). -/
theorem refresh_missing_record (st : RedisState) (cid : String) (ttl now : Nat)
    (h : alGet st.hashes (connHashKey cid) = none) :
    (refreshConnection st cid ttl now).1 = false ∧
    alGet (refreshConnection st cid ttl now).2.hashes (connHashKey cid) =
      some [("last_seen", toString now)] ∧
    alGet (refreshConnection st cid ttl now).2.ttls (connHashKey cid) = some ttl ∧
    (refreshConnection st cid ttl now).2.sets = st.sets ∧
    (∀ sid, ∀ m ∈ (listConnections (refreshConnection st cid ttl now).2 sid true).1,
      m.connection_id ≠ cid) := by
  have hh1 : (hsetOne st (connHashKey cid) "last_seen" (toString now)).hashes =
      alSet st.hashes (connHashKey cid) [("last_seen", toString now)] := by
    simp [hsetOne, h, alSet]
  have hget1 : alGet (hsetOne st (connHashKey cid) "last_seen" (toString now)).hashes
      (connHashKey cid) = some [("last_seen", toString now)] := by
    rw [hh1]
    exact alGet_alSet_self _ _ _
  have hfst : (refreshConnection st cid ttl now).1 = false := by
    simp [refreshConnection, h]
  have hsnd : (refreshConnection st cid ttl now).2 =
      expireKey (hsetOne st (connHashKey cid) "last_seen" (toString now))
        (connHashKey cid) ttl := rfl
  have hexp : expireKey (hsetOne st (connHashKey cid) "last_seen" (toString now))
      (connHashKey cid) ttl =
      { hsetOne st (connHashKey cid) "last_seen" (toString now) with
        ttls := alSet (hsetOne st (connHashKey cid) "last_seen" (toString now)).ttls
          (connHashKey cid) ttl } := by
    unfold expireKey
    rw [hget1]
    rfl
  have hhashes : alGet (refreshConnection st cid ttl now).2.hashes (connHashKey cid) =
      some [("last_seen", toString now)] := by
    rw [hsnd, hexp]
    exact hget1
  have httlss : (hsetOne st (connHashKey cid) "last_seen" (toString now)).ttls =
      st.ttls := rfl
  have httl : alGet (refreshConnection st cid ttl now).2.ttls (connHashKey cid) =
      some ttl := by
    rw [hsnd, hexp]
    show alGet (alSet (hsetOne st (connHashKey cid) "last_seen" (toString now)).ttls
      (connHashKey cid) ttl) (connHashKey cid) = some ttl
    exact alGet_alSet_self _ _ _
  have hsets : (refreshConnection st cid ttl now).2.sets = st.sets := by
    rw [hsnd, hexp]
    rfl
  refine ⟨hfst, hhashes, httl, hsets, ?_⟩
  intro sid m hm
  have hdata : ((alGet (refreshConnection st cid ttl now).2.hashes
      (connHashKey cid)).getD []) = [("last_seen", toString now)] := by
    rw [hhashes]
    rfl
  exact listConnections_not_cid _ sid cid
    (by
      intro hsess
      rw [hdata] at hsess
      simp [alGet] at hsess) m hm

/-- C10 witness on the empty store. -/
theorem refresh_missing_record_witness :
    (refreshConnection ⟨[], [], []⟩ "c9" 120 7).1 = false ∧
    alGet (refreshConnection ⟨[], [], []⟩ "c9" 120 7).2.hashes
      (connHashKey "c9") = some [("last_seen", "7")] ∧
    alGet (refreshConnection ⟨[], [], []⟩ "c9" 120 7).2.ttls
      (connHashKey "c9") = some 120 ∧
    (refreshConnection ⟨[], [], []⟩ "c9" 120 7).2.sets = [] :=
  ⟨(refresh_missing_record ⟨[], [], []⟩ "c9" 120 7 rfl).1,
   (refresh_missing_record ⟨[], [], []⟩ "c9" 120 7 rfl).2.1,
   (refresh_missing_record ⟨[], [], []⟩ "c9" 120 7 rfl).2.2.1,
   (refresh_missing_record ⟨[], [], []⟩ "c9" 120 7 rfl).2.2.2.1⟩

end WsPba
